import Mathlib

/-!
Verification of the evohome-async zone core (src/evohomeasync2/zone.py and
src/evohomeasync2/hotwater.py): the schedule codec, the status-cache refresh,
entity construction, the mode-command builders and the deprecated stubs.

The embedding represents the JSON values exchanged with the remote API as an
inductive type `JVal`; Python dicts are association lists in insertion order
(the payloads handled here have pairwise-distinct keys, where a Python dict
and an insertion-ordered association list agree).  Fallible Python code is
embedded as `Option`/`Except`-valued functions, and operations whose effect is
an HTTP request record the request(s) they issue as an explicit list of
`BrokerCall`s, so that "no network call is made" is a provable statement.

Constants that live in modules of this repository that are not part of the
provided sources (schema/const.py, const.py, exceptions.py) are modelled from
the spec; each such definition carries a doc comment starting with
"Modelled from the spec:".
-/

/-- JSON-like values as handled by the Python client.  `foreign` stands for a
Python object that `json.dumps` cannot serialize (the payload of a dict that
is structured but not JSON-serializable). -/
inductive JVal where
  | null
  | bool (b : Bool)
  | num (q : ℚ)
  | str (s : String)
  | arr (xs : List JVal)
  | obj (kvs : List (String × JVal))
  | foreign (descr : String)

/-- Python `d[k]` / `d.get(k)` on an association-list dict: the value stored
under key `k`, if any.  The payloads treated here have distinct keys, so
first-match lookup coincides with Python-dict lookup. -/
def getKey : List (String × JVal) → String → Option JVal
  | [], _ => none
  | (k', v) :: rest, k => if k' == k then some v else getKey rest k

/-- Python `d[k] = v` on an association-list dict: replace the value at the
first occurrence of `k` in place (Python dicts keep the original position of
an existing key), appending `(k, v)` when `k` is absent. -/
def setKey : List (String × JVal) → String → JVal → List (String × JVal)
  | [], k, v => [(k, v)]
  | (k', v') :: rest, k, v =>
    if k' == k then (k', v) :: rest else (k', v') :: setKey rest k v

/-- Python truthiness of a value, as used by `assert self.zoneId`. -/
def truthy : JVal → Bool
  | .null => false
  | .bool b => b
  | .num q => q != 0
  | .str s => s != ""
  | .arr xs => !xs.isEmpty
  | .obj kvs => !kvs.isEmpty
  | .foreign _ => true

mutual

/-- Whether `json.dumps` succeeds on the value: true iff the value contains no
`foreign` (non-serializable) component. -/
def serializable : JVal → Bool
  | .null => true
  | .bool _ => true
  | .num _ => true
  | .str _ => true
  | .arr xs => serializableList xs
  | .obj kvs => serializableKVs kvs
  | .foreign _ => false

def serializableList : List JVal → Bool
  | [] => true
  | x :: xs => serializable x && serializableList xs

def serializableKVs : List (String × JVal) → Bool
  | [] => true
  | (_, v) :: kvs => serializable v && serializableKVs kvs

end

mutual

/-- Apply a string transform to every string scalar of a JSON tree: to every
object key and to every string value. -/
def jvalMapStr (f : String → String) : JVal → JVal
  | .null => .null
  | .bool b => .bool b
  | .num q => .num q
  | .str s => .str (f s)
  | .arr xs => .arr (jvalMapStrList f xs)
  | .obj kvs => .obj (jvalMapStrKVs f kvs)
  | .foreign d => .foreign d

def jvalMapStrList (f : String → String) : List JVal → List JVal
  | [] => []
  | x :: xs => jvalMapStr f x :: jvalMapStrList f xs

def jvalMapStrKVs (f : String → String) : List (String × JVal) → List (String × JVal)
  | [] => []
  | (k, v) :: kvs => (f k, jvalMapStr f v) :: jvalMapStrKVs f kvs

end

/-- Recursion core of Python `str.replace`: scan left to right, and at each
position where `pat` is a prefix of the remaining text emit `rep` and skip
over the matched characters.  `fuel` bounds the recursion; with
`fuel = s.length` (and `pat` nonempty, as everywhere in this client) the fuel
never runs out, so the `0, s` fallback is unreachable. -/
def replaceGo (pat rep : List Char) : Nat → List Char → List Char
  | _, [] => []
  | 0, s => s
  | fuel + 1, c :: rest =>
    if pat.isPrefixOf (c :: rest) then
      rep ++ replaceGo pat rep fuel ((c :: rest).drop pat.length)
    else
      c :: replaceGo pat rep fuel rest

/-- Python `s.replace(pat, rep)`: replace every (non-overlapping, leftmost)
occurrence of `pat` in `s` by `rep`. -/
def pyReplace (s pat rep : String) : String :=
  ⟨replaceGo pat.data rep.data s.data.length s.data⟩

/-- Python `s.capitalize()`: first character upper-cased, all remaining
characters lower-cased. -/
def pyCapitalize (s : String) : String :=
  match s.data with
  | [] => ""
  | c :: cs => ⟨c.toUpper :: cs.map Char.toLower⟩

/-- Modelled from the spec: schema/const.py is outside the provided sources;
per the spec the remote schedule payload names its fields in lower camel case,
here the daily-schedules sequence. -/
def SZ_DAILY_SCHEDULES : String := "dailySchedules"

/-- Modelled from the spec: the remote day-of-week field name. -/
def SZ_DAY_OF_WEEK : String := "dayOfWeek"

/-- Modelled from the spec: the remote dhw-state switchpoint field name. -/
def SZ_DHW_STATE : String := "dhwState"

/-- Modelled from the spec: the remote switchpoints field name. -/
def SZ_SWITCHPOINTS : String := "switchpoints"

/-- Modelled from the spec: the remote temperature field name (the source
notes it should perhaps have been the heat-setpoint field). -/
def SZ_TEMPERATURE : String := "temperature"

/-- Modelled from the spec: the remote time-of-day switchpoint field name. -/
def SZ_TIME_OF_DAY : String := "timeOfDay"

/-- Modelled from the spec: the heat-setpoint switchpoint field name (a
heating switchpoint carries a heat-setpoint value). -/
def SZ_HEAT_SETPOINT : String := "heatSetpoint"

/-- The fixed list of inconsistently-cased schedule field names, in the order
zone.py declares them (zone.py lines 47-54). -/
def CAPITALIZED_KEYS : List String :=
  [SZ_DAILY_SCHEDULES, SZ_DAY_OF_WEEK, SZ_DHW_STATE, SZ_SWITCHPOINTS,
    SZ_TEMPERATURE, SZ_TIME_OF_DAY]

/-- The casing loop of `_ZoneBase.get_schedule` (zone.py lines 124-125):
`for key_name in CAPITALIZED_KEYS: text = text.replace(key_name,
key_name.capitalize())`, applied to the `json.dumps` serialization. -/
def capitalizeKeys (text : String) : String :=
  CAPITALIZED_KEYS.foldl (fun acc k => pyReplace acc k (pyCapitalize k)) text

example : capitalizeKeys "dailySchedules" = "Dailyschedules" := by decide
example : capitalizeKeys "dayOfWeek" = "Dayofweek" := by decide
example : capitalizeKeys "dhwState" = "Dhwstate" := by decide
example : capitalizeKeys "switchpoints" = "Switchpoints" := by decide
example : capitalizeKeys "timeOfDay" = "Timeofday" := by decide
example : capitalizeKeys "heatSetpoint" = "heatSetpoint" := by decide

/-- In-place Python assignment `setpoints[SZ_DAY_OF_WEEK.capitalize()] =
day_of_week` on one daily-schedule entry (zone.py line 130); `none` models the
TypeError Python raises when the entry is not a dict. -/
def setDow (i : Nat) (e : JVal) : Option JVal :=
  match e with
  | .obj kvs => some (.obj (setKey kvs (pyCapitalize SZ_DAY_OF_WEEK) (.num (i : ℚ))))
  | _ => none

/-- The `for day_of_week, setpoints in enumerate(...)` loop of
`_ZoneBase.get_schedule` (zone.py lines 129-130): assign to every entry, in
encounter order, the ordinal equal to its position (starting at `i`). -/
def assignOrds (i : Nat) : List JVal → Option (List JVal)
  | [] => some []
  | e :: es =>
    match setDow i e with
    | some e2 => (assignOrds (i + 1) es).map (fun es2 => e2 :: es2)
    | none => none

/-- Shallow embedding of the response transform of `_ZoneBase.get_schedule`
(zone.py lines 123-132), applied to the schema-validated payload returned by
`broker.get(f"SELF_TYPE/SELF_ID/schedule", schema=SCH_SCHEDULE)`.  The source
serializes the payload with `json.dumps`, applies the `CAPITALIZED_KEYS`
text replacements to the whole serialized text, and re-parses with
`json.loads`.  Since every replaced key is purely alphabetic and JSON
punctuation is not, any textual match lies inside a single maximal alphabetic
run of the serialized text, i.e. inside one string scalar (no key is a
substring of `true`, `false` or `null`, and none contains a digit); the
dumps/replace/loads round trip therefore acts on the parsed tree exactly as
`jvalMapStr capitalizeKeys`, which is how it is embedded here.  The function
returns `none` where the Python code raises: a non-serializable input
(`json.dumps` fails — impossible for broker-parsed JSON), a missing or
non-array capitalized daily-schedules key (KeyError/TypeError), or a
non-dict entry (TypeError in the assignment loop). -/
def get_schedule (schedule : JVal) : Option JVal :=
  if serializable schedule then
    match jvalMapStr capitalizeKeys schedule with
    | .obj kvs =>
      match getKey kvs (pyCapitalize SZ_DAILY_SCHEDULES) with
      | some (.arr entries) =>
        match assignOrds 0 entries with
        | some entries2 =>
          some (.obj (setKey kvs (pyCapitalize SZ_DAILY_SCHEDULES) (.arr entries2)))
        | none => none
      | _ => none
    | _ => none
  else none

/-- Character set of the schema's fixed-format time-of-day strings
("HH:MM:SS"): decimal digits and the colon. -/
def todChar (c : Char) : Bool := c.isDigit || c == ':'

/-- Modelled from the spec: the schedule schema (SCH_SCHEDULE, outside the
provided sources) constrains a switchpoint's time-of-day to a fixed-format
time string; the codec's behavior depends only on its character set, so the
model checks exactly that. -/
def isTimeOfDay (s : String) : Bool := s.data.all todChar

/-- Modelled from the spec: the remote day-of-week values are English day
names, Monday first. -/
def DAY_NAMES : List String :=
  ["Monday", "Tuesday", "Wednesday", "Thursday", "Friday", "Saturday", "Sunday"]

/-- A remote switchpoint value field: a heat-setpoint number (heating) or a
dhw-state in the allowed state set (hot water).  Modelled from the spec's
schedule shape; the schema files are outside the provided sources. -/
def isSpValKV : String × JVal → Bool
  | (k, .num _) => k == SZ_HEAT_SETPOINT
  | (k, .str s) => k == SZ_DHW_STATE && (s == "On" || s == "Off")
  | _ => false

/-- A remote switchpoint time-of-day field. -/
def isTodKV : String × JVal → Bool
  | (k, .str s) => k == SZ_TIME_OF_DAY && isTimeOfDay s
  | _ => false

/-- A remote switchpoint: an object holding exactly a value field and a
time-of-day field, in either order. -/
def validSp : JVal → Bool
  | .obj [kv1, kv2] => (isSpValKV kv1 && isTodKV kv2) || (isTodKV kv1 && isSpValKV kv2)
  | _ => false

/-- A remote day-of-week field: a day-name string. -/
def isDowKV : String × JVal → Bool
  | (k, .str s) => k == SZ_DAY_OF_WEEK && DAY_NAMES.contains s
  | _ => false

/-- A remote switchpoints field: an array of valid switchpoints. -/
def isSwpsKV : String × JVal → Bool
  | (k, .arr sps) => k == SZ_SWITCHPOINTS && sps.all validSp
  | _ => false

/-- A remote daily-schedule entry: an object holding exactly a day-of-week
field and a switchpoints field, in either order. -/
def validEntry : JVal → Bool
  | .obj [kv1, kv2] => (isDowKV kv1 && isSwpsKV kv2) || (isSwpsKV kv1 && isDowKV kv2)
  | _ => false

/-- Modelled from the spec: a remote schedule payload accepted by the
schedule schema — an object whose single field is the daily-schedules array,
each entry carrying a day name and an array of switchpoints. -/
def validSchedule : JVal → Bool
  | .obj [(k, .arr entries)] => k == SZ_DAILY_SCHEDULES && entries.all validEntry
  | _ => false

/-- Option-valued traversal (`List.mapM` specialized to `Option`, written out
so that proofs and evaluation unfold it directly). -/
def mapO {α β : Type} (f : α → Option β) : List α → Option (List β)
  | [] => some []
  | x :: xs =>
    match f x, mapO f xs with
    | some y, some ys => some (y :: ys)
    | _, _ => none

/-- Observer: the (time-of-day, value) pair of a switchpoint, reading the
time under `timeKey` and the value under the heat-setpoint key or `valKey`. -/
def spContent (timeKey valKey : String) (sp : JVal) : Option (JVal × JVal) :=
  match sp with
  | .obj kvs =>
    match getKey kvs timeKey, (getKey kvs SZ_HEAT_SETPOINT).orElse (fun _ => getKey kvs valKey) with
    | some t, some v => some (t, v)
    | _, _ => none
  | _ => none

/-- Observer: the ordered switchpoint contents of a daily-schedule entry. -/
def entryContent (swKey timeKey valKey : String) (e : JVal) : Option (List (JVal × JVal)) :=
  match e with
  | .obj kvs =>
    match getKey kvs swKey with
    | some (.arr sps) => mapO (spContent timeKey valKey) sps
    | _ => none
  | _ => none

/-- Observer: the ordered daily contents of a schedule payload. -/
def schedContent (dsKey swKey timeKey valKey : String) (j : JVal) :
    Option (List (List (JVal × JVal))) :=
  match j with
  | .obj kvs =>
    match getKey kvs dsKey with
    | some (.arr es) => mapO (entryContent swKey timeKey valKey) es
    | _ => none
  | _ => none

/-- The schedule content of a remote payload: per day, in order, the ordered
(time-of-day, setpoint-or-state) pairs, under the remote field names. -/
def remoteContent : JVal → Option (List (List (JVal × JVal))) :=
  schedContent SZ_DAILY_SCHEDULES SZ_SWITCHPOINTS SZ_TIME_OF_DAY SZ_DHW_STATE

/-- The schedule content of a decoded (internal) payload: same pairs, under
the capitalized field names `get_schedule` produces. -/
def internalContent : JVal → Option (List (List (JVal × JVal))) :=
  schedContent (pyCapitalize SZ_DAILY_SCHEDULES) (pyCapitalize SZ_SWITCHPOINTS)
    (pyCapitalize SZ_TIME_OF_DAY) (pyCapitalize SZ_DHW_STATE)

/-- Observer: the daily-schedules array of a remote payload. -/
def remoteDays (j : JVal) : Option (List JVal) :=
  match j with
  | .obj kvs =>
    match getKey kvs SZ_DAILY_SCHEDULES with
    | some (.arr es) => some es
    | _ => none
  | _ => none

/-- Observer: the daily-schedules array of a decoded payload (under the
capitalized key), read off an optional `get_schedule` result. -/
def internalDays : Option JVal → Option (List JVal)
  | some (.obj kvs) =>
    match getKey kvs (pyCapitalize SZ_DAILY_SCHEDULES) with
    | some (.arr es) => some es
    | _ => none
  | _ => none

/-- Observer: the day-of-week ordinal field of a decoded entry. -/
def entryDow (e : JVal) : Option JVal :=
  match e with
  | .obj kvs => getKey kvs (pyCapitalize SZ_DAY_OF_WEEK)
  | _ => none

/-- The four JSON whitespace characters. -/
def JSON_WS : List Char := [' ', '\t', '\n', '\r']

/-- Whether a character is JSON whitespace. -/
def isJsonWs (c : Char) : Bool := JSON_WS.contains c

/-- Drop leading JSON whitespace. -/
def skipWs (cs : List Char) : List Char := cs.dropWhile isJsonWs

/-- Consume an expected literal character sequence. -/
def eatChars (expected cs : List Char) : Option (List Char) :=
  if expected.isPrefixOf cs then some (cs.drop expected.length) else none

/-- The single-character JSON string escapes paired with their decodings. -/
def JSON_ESCAPES : List (Char × Char) :=
  [('"', '"'), ('\\', '\\'), ('/', '/'), ('n', '\n'), ('t', '\t'), ('r', '\r'),
    ('b', Char.ofNat 8), ('f', Char.ofNat 12)]

/-- Decode a single-character JSON string escape via the table. -/
def escChar (e : Char) : Option Char :=
  (JSON_ESCAPES.find? (fun p => p.1 == e)).map (fun p => p.2)

/-- Parse the body of a JSON string literal after the opening quote,
supporting the single-character escapes; `\u` escapes are outside the model
(none of the payloads of this API carry them). -/
def parseStrLit : List Char → Option (String × List Char)
  | [] => none
  | '"' :: rest => some ("", rest)
  | '\\' :: e :: rest =>
    (match escChar e with
      | some c => (parseStrLit rest).map (fun (s, r) => (⟨c :: s.data⟩, r))
      | none => none)
  | '\\' :: [] => none
  | c :: rest => (parseStrLit rest).map (fun (s, r) => (⟨c :: s.data⟩, r))

/-- Parse a maximal run of decimal digits into its value and length. -/
def parseDigits : List Char → Nat → Nat → (Nat × Nat × List Char)
  | [], acc, len => (acc, len, [])
  | c :: rest, acc, len =>
    if c.isDigit then parseDigits rest (acc * 10 + (c.toNat - 48)) (len + 1)
    else (acc, len, c :: rest)

/-- Split a leading minus sign off a number. -/
def splitNeg : List Char → Bool × List Char
  | '-' :: rest => (true, rest)
  | cs => (false, cs)

/-- Split a leading exponent sign (minus, plus or none). -/
def splitExpSign : List Char → Bool × List Char
  | '-' :: rest => (true, rest)
  | '+' :: rest => (false, rest)
  | cs => (false, cs)

/-- Parse the optional exponent clause of a JSON number into the exponent's
sign and magnitude; the `none` outcome stands for a malformed exponent. -/
def parseExp (cs : List Char) : Option (Bool × Nat) × List Char :=
  match cs with
  | 'e' :: rest | 'E' :: rest =>
    let (es, r0) := splitExpSign rest
    let (ep, el, r) := parseDigits r0 0 0
    (if el == 0 then none else some (es, ep), r)
  | _ => (some (false, 0), cs)

/-- Parse a JSON number (sign, integer part, optional fraction, optional
exponent) into a rational. -/
def parseNum (s : List Char) : Option (ℚ × List Char) :=
  let (neg, s1) := splitNeg s
  let (ip, il, s2) := parseDigits s1 0 0
  if il == 0 then none
  else
    let (fp, fl, s3) : Nat × Nat × List Char := match s2 with
      | '.' :: rest => parseDigits rest 0 0
      | _ => (0, 0, s2)
    match parseExp s3 with
    | (none, _) => none
    | (some (eneg, ep), s4) =>
      let mantissa : ℤ := (if neg then -1 else 1) * ((ip * 10 ^ fl + fp : Nat) : ℤ)
      let q : ℚ :=
        if eneg then Rat.divInt mantissa ((10 ^ (fl + ep) : Nat) : ℤ)
        else Rat.divInt (mantissa * (10 ^ ep : Nat)) ((10 ^ fl : Nat) : ℤ)
      some (q, s4)

/-- Python-dict insertion for `json.loads` object parsing: a repeated key
keeps its first position and takes the last value. -/
def insertKV (kvs : List (String × JVal)) (k : String) (v : JVal) :
    List (String × JVal) :=
  setKey kvs k v

mutual

/-- Parse one JSON value (fuel-bounded recursive descent). -/
def parseJ : Nat → List Char → Option (JVal × List Char)
  | 0, _ => none
  | fuel + 1, s =>
    match skipWs s with
    | [] => none
    | 'n' :: rest => (eatChars ['u', 'l', 'l'] rest).map (fun r => (.null, r))
    | 't' :: rest => (eatChars ['r', 'u', 'e'] rest).map (fun r => (.bool true, r))
    | 'f' :: rest => (eatChars ['a', 'l', 's', 'e'] rest).map (fun r => (.bool false, r))
    | '"' :: rest => (parseStrLit rest).map (fun (s2, r) => (.str s2, r))
    | '[' :: rest =>
      (match skipWs rest with
        | ']' :: r2 => some (.arr [], r2)
        | r2 => (parseArrItems fuel r2).map (fun (xs, r3) => (.arr xs, r3)))
    | '{' :: rest =>
      (match skipWs rest with
        | '}' :: r2 => some (.obj [], r2)
        | r2 => (parseObjItems fuel [] r2).map (fun (kvs, r3) => (.obj kvs, r3)))
    | c :: rest =>
      if c.isDigit || c == '-' then
        (parseNum (c :: rest)).map (fun (q, r) => (.num q, r))
      else none

/-- Parse the comma-separated items of a nonempty JSON array. -/
def parseArrItems : Nat → List Char → Option (List JVal × List Char)
  | 0, _ => none
  | fuel + 1, s =>
    (parseJ fuel s).bind (fun (v, r) =>
      match skipWs r with
      | ',' :: r2 => (parseArrItems fuel r2).map (fun (xs, r3) => (v :: xs, r3))
      | ']' :: r2 => some ([v], r2)
      | _ => none)

/-- Parse the comma-separated members of a nonempty JSON object. -/
def parseObjItems : Nat → List (String × JVal) → List Char → Option (List (String × JVal) × List Char)
  | 0, _, _ => none
  | fuel + 1, acc, s =>
    match skipWs s with
    | '"' :: rest =>
      (parseStrLit rest).bind (fun (k, r) =>
        match skipWs r with
        | ':' :: r2 =>
          (parseJ fuel r2).bind (fun (v, r3) =>
            match skipWs r3 with
            | ',' :: r4 => parseObjItems fuel (insertKV acc k v) r4
            | '}' :: r4 => some (insertKV acc k v, r4)
            | _ => none)
        | _ => none)
    | _ => none

end

/-- Model of stdlib `json.loads` (an external collaborator of this core, not
repository code): parse the whole text as one JSON document, requiring
nothing but whitespace after it.  The model covers the JSON fragment the
schedule payloads live in; it leaves out `\u` escapes and the `NaN/Infinity`
extensions Python additionally accepts. -/
def json_loads (text : String) : Option JVal :=
  match parseJ (2 * text.data.length + 2) text.data with
  | some (v, rest) => if skipWs rest == [] then some v else none
  | none => none

example : json_loads "not json" = none := rfl
example : json_loads " [1, true, null] " = some (.arr [.num 1, .bool true, .null]) := rfl
example : (match json_loads "[2.5e1]" with
  | some (.arr [.num q]) => q == 25
  | _ => false) = true := rfl
example : json_loads "" = none := rfl

/-- Error kinds raised by the core, in the spec's taxonomy.  The Python
source realizes `invalidSchedule` as the InvalidSchedule exception
(exceptions.py, outside the provided sources), `deprecated` as the
NotImplementedError the deprecation stubs raise, `configIntegrity` as the
KeyError/AssertionError a constructor raises on a bad config payload, and
`remoteRequest` as the opaque transport failure propagated from the broker. -/
inductive EvoError where
  | invalidSchedule (msg : String)
  | deprecated (msg : String)
  | configIntegrity (msg : String)
  | remoteRequest (msg : String)
  | keyError (key : String)

/-- One HTTP PUT issued through the broker collaborator: the resource path
(relative to the API root) and the JSON body. -/
structure BrokerCall where
  path : String
  body : JVal

/-- The argument accepted by `_ZoneBase.set_schedule`: a dict, a str, or a
value of any other Python type (carrying its type name). -/
inductive SchedArg where
  | dict (kvs : List (String × JVal))
  | str (s : String)
  | other (tyName : String)

/-- Shallow embedding of `_ZoneBase.set_schedule` (zone.py lines 134-156) for
a zone of type `ty` and id `id`.  The result records the broker PUT calls the
operation issues, in order, together with the error it raises, if any: a dict
argument is first checked with `json.dumps` (raising InvalidSchedule when not
serializable), a str argument is parsed with `json.loads` (raising
InvalidSchedule when unparseable), any other type raises InvalidSchedule
immediately; only after these checks succeed is the single PUT to
`SELF_TYPE/SELF_ID/schedule` issued, with the dict itself (resp. the parsed
value) as its body. -/
def set_schedule (ty id : String) (schedule : SchedArg) :
    List BrokerCall × Option EvoError :=
  match schedule with
  | .dict kvs =>
    if serializable (.obj kvs) then
      ([⟨ty ++ "/" ++ id ++ "/schedule", .obj kvs⟩], none)
    else
      ([], some (.invalidSchedule "Invalid schedule: not JSON serializable"))
  | .str s =>
    match json_loads s with
    | some v => ([⟨ty ++ "/" ++ id ++ "/schedule", v⟩], none)
    | none => ([], some (.invalidSchedule "Invalid schedule: JSONDecodeError"))
  | .other tyName => ([], some (.invalidSchedule ("Invalid schedule type: " ++ tyName)))

/-- The resource path `_ZoneBase._refresh_status` issues its GET on
(zone.py line 96): `f"SELF_TYPE/SELF_ID/status"`. -/
def refresh_path (ty id : String) : String :=
  ty ++ "/" ++ id ++ "/status"

/-- The status cache `self._status` as initialized by `_ZoneBase.__init__`
(zone.py line 84): the empty dict. -/
def initialStatus : List (String × JVal) := []

/-- Shallow embedding of `_ZoneBase._refresh_status` (zone.py lines 89-100):
`resp` is the outcome of `broker.get(refresh_path ty id, schema)` — either
the schema-validated status payload or a raised transport/validation error.
The result pairs what the method returns (or propagates) with the status
cache after the call: on success the cache is replaced wholesale by the
payload, which is also returned; on failure the exception propagates before
`_update_status` runs, so the cache is exactly the prior one. -/
def refresh_status (resp : Except EvoError (List (String × JVal)))
    (status : List (String × JVal)) :
    Except EvoError (List (String × JVal)) × List (String × JVal) :=
  match resp with
  | .error e => (.error e, status)
  | .ok payload => (.ok payload, payload)

/-- Modelled from the spec: the status field names (schema/const.py is
outside the provided sources) in the remote lower-camel-case convention. -/
def SZ_ACTIVE_FAULTS : String := "activeFaults"

/-- Modelled from the spec: the temperature-status field name. -/
def SZ_TEMPERATURE_STATUS : String := "temperatureStatus"

/-- Modelled from the spec: the heating setpoint-status field name. -/
def SZ_SETPOINT_STATUS : String := "setpointStatus"

/-- Modelled from the spec: the hot-water state-status field name. -/
def SZ_STATE_STATUS : String := "stateStatus"

/-- `_ZoneBase.activeFaults` (zone.py lines 106-108): `self._status.get(...)`. -/
def activeFaults (status : List (String × JVal)) : Option JVal :=
  getKey status SZ_ACTIVE_FAULTS

/-- `_ZoneBase.temperatureStatus` (zone.py lines 110-112). -/
def temperatureStatus (status : List (String × JVal)) : Option JVal :=
  getKey status SZ_TEMPERATURE_STATUS

/-- `Zone.setpointStatus` (zone.py lines 199-201). -/
def setpointStatus (status : List (String × JVal)) : Option JVal :=
  getKey status SZ_SETPOINT_STATUS

/-- `HotWater.stateStatus` (hotwater.py lines 86-88). -/
def stateStatus (status : List (String × JVal)) : Option JVal :=
  getKey status SZ_STATE_STATUS

/-- Modelled from the spec: the heating-zone identifier config field name. -/
def SZ_ZONE_ID : String := "zoneId"

/-- Modelled from the spec: the hot-water identifier config field name. -/
def SZ_DHW_ID : String := "dhwId"

/-- Modelled from the spec: the zone name config field name. -/
def SZ_NAME : String := "name"

/-- Modelled from the spec: the heating-zone type discriminator
(`_type = SZ_TEMPERATURE_ZONE`, used in remote resource paths). -/
def SZ_TEMPERATURE_ZONE : String := "temperatureZone"

/-- Modelled from the spec: the hot-water type discriminator. -/
def SZ_DOMESTIC_HOT_WATER : String := "domesticHotWater"

/-- The state of a constructed heating-zone entity: `self._id`,
`self._config` (immutable after construction) and `self._status`. -/
structure ZoneRec where
  _id : JVal
  _config : List (String × JVal)
  _status : List (String × JVal)

/-- The state of a constructed hot-water entity. -/
structure HotWaterRec where
  _id : JVal
  _config : List (String × JVal)
  _status : List (String × JVal)

/-- Shallow embedding of `Zone.__init__` (zone.py lines 165-171): store the
config, then `assert self.zoneId` — the `zoneId` property raises KeyError
when the identifier field is absent, and the assert raises AssertionError
("Invalid config dict") when it is falsy (e.g. empty); both surface as the
spec's construction-time ConfigIntegrityError and prevent entity creation.
Otherwise `self._id = self.zoneId` and the entity starts with an empty
status cache. -/
def Zone_init (config : List (String × JVal)) : Except EvoError ZoneRec :=
  match getKey config SZ_ZONE_ID with
  | none => .error (.configIntegrity ("KeyError: " ++ SZ_ZONE_ID))
  | some v =>
    if truthy v then .ok ⟨v, config, initialStatus⟩
    else .error (.configIntegrity "Invalid config dict")

/-- Shallow embedding of `HotWater.__init__` (hotwater.py lines 60-66):
as `Zone_init` with the `dhwId` identifier field. -/
def HotWater_init (config : List (String × JVal)) : Except EvoError HotWaterRec :=
  match getKey config SZ_DHW_ID with
  | none => .error (.configIntegrity ("KeyError: " ++ SZ_DHW_ID))
  | some v =>
    if truthy v then .ok ⟨v, config, initialStatus⟩
    else .error (.configIntegrity "Invalid config dict")

/-- `Zone.name` (zone.py lines 194-197):
`self._config.get(SZ_NAME) or self._config[SZ_NAME]` — the stored name when
it is truthy, otherwise the subscript access, which returns the same falsy
value when the field is present and raises KeyError when it is absent. -/
def Zone_name (config : List (String × JVal)) : Except EvoError JVal :=
  match getKey config SZ_NAME with
  | some v =>
    if truthy v then .ok v
    else
      match getKey config SZ_NAME with
      | some v2 => .ok v2
      | none => .error (.keyError SZ_NAME)
  | none =>
    match getKey config SZ_NAME with
    | some v2 => .ok v2
    | none => .error (.keyError SZ_NAME)

/-- `HotWater.name` (hotwater.py lines 81-84): the constant string, read from
neither the config nor the status of the entity. -/
def HotWater_name (_hw : HotWaterRec) : String :=
  "Domestic Hot Water"

/-- A wall-clock instant as passed for the `until` arguments
(datetime.datetime in the source). -/
structure Datetime where
  year : Nat
  month : Nat
  day : Nat
  hour : Nat
  minute : Nat
  second : Nat

/-- Zero-pad a number to two digits, as strftime's numeric directives do. -/
def pad2 (n : Nat) : String :=
  if n < 10 then "0" ++ toString n else toString n

/-- Modelled from the spec: `until.strftime(API_STRFTIME)` — API_STRFTIME is
the single fixed client-wide timestamp format, an external constant declared
in const.py, outside the provided sources; it is modelled as a concrete
ISO-8601-style renderer.  The claims depend only on the formatted timestamp
being this function of `until`, not on the exact pattern. -/
def api_strftime (t : Datetime) : String :=
  toString t.year ++ "-" ++ pad2 t.month ++ "-" ++ pad2 t.day ++ "T" ++
    pad2 t.hour ++ ":" ++ pad2 t.minute ++ ":" ++ pad2 t.second ++ "Z"

/-- Modelled from the spec: the command payload field names and mode values
of the heating-zone command shape (schema/const.py is outside the provided
sources); per the spec these are `SetpointMode`, `HeatSetpointValue`,
`TimeUntil`, and the modes `PermanentOverride` / `TemporaryOverride` /
`FollowSchedule`. -/
def SZ_SETPOINT_MODE : String := "SetpointMode"

/-- Modelled from the spec: the heating command setpoint-value field name. -/
def SZ_HEAT_SETPOINT_VALUE : String := "HeatSetpointValue"

/-- Modelled from the spec: the heating command until-time field name. -/
def SZ_TIME_UNTIL : String := "TimeUntil"

/-- Modelled from the spec: the permanent-override mode value. -/
def SZ_PERMANENT_OVERRIDE : String := "PermanentOverride"

/-- Modelled from the spec: the temporary-override mode value. -/
def SZ_TEMPORARY_OVERRIDE : String := "TemporaryOverride"

/-- Modelled from the spec: the follow-schedule mode value. -/
def SZ_FOLLOW_SCHEDULE : String := "FollowSchedule"

/-- `Zone._set_mode` (zone.py lines 203-208): PUT the constructed payload to
`f"SELF_TYPE/SELF_ID/heatSetpoint"` with `_type = SZ_TEMPERATURE_ZONE`. -/
def Zone_set_mode (id : String) (heat_setpoint : JVal) : BrokerCall :=
  ⟨SZ_TEMPERATURE_ZONE ++ "/" ++ id ++ "/heatSetpoint", heat_setpoint⟩

/-- `Zone.set_temperature` (zone.py lines 210-228): permanent override when
`until` is absent, temporary override carrying the formatted timestamp when
present. -/
def Zone_set_temperature (id : String) (temperature : ℚ)
    (until_ : Option Datetime) : BrokerCall :=
  match until_ with
  | none =>
    Zone_set_mode id (.obj
      [(SZ_SETPOINT_MODE, .str SZ_PERMANENT_OVERRIDE),
        (SZ_HEAT_SETPOINT_VALUE, .num temperature),
        (SZ_TIME_UNTIL, .null)])
  | some t =>
    Zone_set_mode id (.obj
      [(SZ_SETPOINT_MODE, .str SZ_TEMPORARY_OVERRIDE),
        (SZ_HEAT_SETPOINT_VALUE, .num temperature),
        (SZ_TIME_UNTIL, .str (api_strftime t))])

/-- `Zone.cancel_temp_override` (zone.py lines 230-239): follow-schedule with
a zero setpoint and no until-time. -/
def Zone_cancel_temp_override (id : String) : BrokerCall :=
  Zone_set_mode id (.obj
    [(SZ_SETPOINT_MODE, .str SZ_FOLLOW_SCHEDULE),
      (SZ_HEAT_SETPOINT_VALUE, .num 0),
      (SZ_TIME_UNTIL, .null)])

/-- `HotWater._set_mode` (hotwater.py lines 90-95): PUT the state payload to
`f"SELF_TYPE/SELF_ID/state"` with `_type = SZ_DOMESTIC_HOT_WATER`. -/
def HotWater_set_mode (id : String) (state : JVal) : BrokerCall :=
  ⟨SZ_DOMESTIC_HOT_WATER ++ "/" ++ id ++ "/state", state⟩

/-- `HotWater.set_on` (hotwater.py lines 97-109). -/
def HotWater_set_on (id : String) (until_ : Option Datetime) : BrokerCall :=
  match until_ with
  | none =>
    HotWater_set_mode id (.obj
      [("Mode", .str "PermanentOverride"), ("State", .str "On"),
        ("UntilTime", .null)])
  | some t =>
    HotWater_set_mode id (.obj
      [("Mode", .str "TemporaryOverride"), ("State", .str "On"),
        ("UntilTime", .str (api_strftime t))])

/-- `HotWater.set_off` (hotwater.py lines 111-123). -/
def HotWater_set_off (id : String) (until_ : Option Datetime) : BrokerCall :=
  match until_ with
  | none =>
    HotWater_set_mode id (.obj
      [("Mode", .str "PermanentOverride"), ("State", .str "Off"),
        ("UntilTime", .null)])
  | some t =>
    HotWater_set_mode id (.obj
      [("Mode", .str "TemporaryOverride"), ("State", .str "Off"),
        ("UntilTime", .str (api_strftime t))])

/-- `HotWater.set_auto` (hotwater.py lines 125-130). -/
def HotWater_set_auto (id : String) : BrokerCall :=
  HotWater_set_mode id (.obj
    [("Mode", .str "FollowSchedule"), ("State", .str ""), ("UntilTime", .null)])

/-- `_ZoneBaseDeprecated.zone_type` (zone.py lines 60-62): raises
NotImplementedError naming the replacement, before anything else happens, so
no broker call is ever issued. -/
def ZoneBaseDeprecated_zone_type : List BrokerCall × Option EvoError :=
  ([], some (.deprecated "ZoneBase.zone_type is deprecated, use ._type"))

/-- `_ZoneBaseDeprecated.schedule` (zone.py lines 64-67); the message keeps
the source's spelling. -/
def ZoneBaseDeprecated_schedule : List BrokerCall × Option EvoError :=
  ([], some (.deprecated "ZoneBase.schedule() is deprecrated, use .get_schedule()"))

/-- `HotWaterDeprecated.zoneId` (hotwater.py lines 31-33). -/
def HotWaterDeprecated_zoneId : List BrokerCall × Option EvoError :=
  ([], some (.deprecated "HotWater.zoneId is deprecated, use .dhwId (or ._id)"))

/-- `HotWaterDeprecated.get_dhw_state` (hotwater.py lines 35-38); accepts any
positional and keyword arguments and ignores them. -/
def HotWaterDeprecated_get_dhw_state (_args : List JVal)
    (_kwargs : List (String × JVal)) : List BrokerCall × Option EvoError :=
  ([], some (.deprecated "HotWater.get_dhw_state() is deprecated, use .update_status()"))

/-- `HotWaterDeprecated.set_dhw_on` (hotwater.py lines 40-41). -/
def HotWaterDeprecated_set_dhw_on (_args : List JVal)
    (_kwargs : List (String × JVal)) : List BrokerCall × Option EvoError :=
  ([], some (.deprecated "HotWater.set_dhw_on() is deprecated, use .set_on()"))

/-- `HotWaterDeprecated.set_dhw_off` (hotwater.py lines 43-46). -/
def HotWaterDeprecated_set_dhw_off (_args : List JVal)
    (_kwargs : List (String × JVal)) : List BrokerCall × Option EvoError :=
  ([], some (.deprecated "HotWater.set_dhw_off() is deprecated, use .set_off()"))

/-- `HotWaterDeprecated.set_dhw_auto` (hotwater.py lines 48-51). -/
def HotWaterDeprecated_set_dhw_auto (_args : List JVal)
    (_kwargs : List (String × JVal)) : List BrokerCall × Option EvoError :=
  ([], some (.deprecated "HotWater.set_dhw_auto() is deprecated, use .set_auto()"))

theorem replaceGo_of_not_mem (p : Char) (ps rep : List Char) :
    ∀ (s : List Char) (fuel : Nat), p ∉ s → replaceGo (p :: ps) rep fuel s = s := by
  intro s
  induction s with
  | nil => intro fuel _; cases fuel <;> rfl
  | cons c rest ih =>
    intro fuel h
    cases fuel with
    | zero => rfl
    | succ f =>
      have hpc : (p == c) = false := by
        simp only [beq_eq_false_iff_ne]
        intro he
        exact h (he ▸ List.mem_cons_self c rest)
      simp only [replaceGo, List.isPrefixOf, hpc, Bool.false_and, if_neg,
        Bool.false_eq_true, not_false_iff]
      exact congrArg (c :: ·) (ih f (fun hm => h (List.mem_cons_of_mem c hm)))

theorem pyReplace_eq_self (s pat rep : String) (p : Char) (ps : List Char)
    (hp : pat.data = p :: ps) (h : p ∉ s.data) : pyReplace s pat rep = s := by
  obtain ⟨d⟩ := s
  simp only [pyReplace, hp]
  exact congrArg String.mk (replaceGo_of_not_mem p ps rep.data d d.length h)

theorem capitalizeKeys_tod (s : String) (h : ∀ c ∈ s.data, todChar c = true) :
    capitalizeKeys s = s := by
  have hmem : ∀ (x : Char), todChar x = false → x ∉ s.data := by
    intro x hx hm
    have hc := h x hm
    rw [hx] at hc
    exact Bool.false_ne_true hc
  simp only [capitalizeKeys, CAPITALIZED_KEYS, List.foldl]
  rw [pyReplace_eq_self s SZ_DAILY_SCHEDULES _ 'd' ("ailySchedules".data) (by decide) (hmem 'd' (by decide))]
  rw [pyReplace_eq_self s SZ_DAY_OF_WEEK _ 'd' ("ayOfWeek".data) (by decide) (hmem 'd' (by decide))]
  rw [pyReplace_eq_self s SZ_DHW_STATE _ 'd' ("hwState".data) (by decide) (hmem 'd' (by decide))]
  rw [pyReplace_eq_self s SZ_SWITCHPOINTS _ 's' ("witchpoints".data) (by decide) (hmem 's' (by decide))]
  rw [pyReplace_eq_self s SZ_TEMPERATURE _ 't' ("emperature".data) (by decide) (hmem 't' (by decide))]
  rw [pyReplace_eq_self s SZ_TIME_OF_DAY _ 't' ("imeOfDay".data) (by decide) (hmem 't' (by decide))]

theorem getKey_setKey_self (kvs : List (String × JVal)) (k : String) (v : JVal) :
    getKey (setKey kvs k v) k = some v := by
  induction kvs with
  | nil => simp [setKey, getKey]
  | cons kv rest ih =>
    obtain ⟨k', v'⟩ := kv
    by_cases hk : (k' == k) = true
    · simp [setKey, getKey, hk]
    · simp only [Bool.not_eq_true] at hk
      simp [setKey, getKey, hk, ih]

/-- The per-entry content observer under the remote field names. -/
def entryContentR : JVal → Option (List (JVal × JVal)) :=
  entryContent SZ_SWITCHPOINTS SZ_TIME_OF_DAY SZ_DHW_STATE

/-- The per-entry content observer under the decoded field names. -/
def entryContentI : JVal → Option (List (JVal × JVal)) :=
  entryContent (pyCapitalize SZ_SWITCHPOINTS) (pyCapitalize SZ_TIME_OF_DAY)
    (pyCapitalize SZ_DHW_STATE)

/-- The per-switchpoint content observer under the remote field names. -/
def spContentR : JVal → Option (JVal × JVal) :=
  spContent SZ_TIME_OF_DAY SZ_DHW_STATE

/-- The per-switchpoint content observer under the decoded field names. -/
def spContentI : JVal → Option (JVal × JVal) :=
  spContent (pyCapitalize SZ_TIME_OF_DAY) (pyCapitalize SZ_DHW_STATE)

theorem isSpValKV_inv (kv : String × JVal) (h : isSpValKV kv = true) :
    (∃ q, kv = (SZ_HEAT_SETPOINT, .num q)) ∨
      (∃ s, kv = (SZ_DHW_STATE, .str s) ∧ (s = "On" ∨ s = "Off")) := by
  obtain ⟨k, v⟩ := kv
  cases v with
  | num q =>
    simp only [isSpValKV, beq_iff_eq] at h
    exact Or.inl ⟨q, by rw [h]⟩
  | str s =>
    simp only [isSpValKV, Bool.and_eq_true, beq_iff_eq, Bool.or_eq_true] at h
    exact Or.inr ⟨s, by rw [h.1], h.2⟩
  | null => simp [isSpValKV] at h
  | bool b => simp [isSpValKV] at h
  | arr xs => simp [isSpValKV] at h
  | obj kvs => simp [isSpValKV] at h
  | foreign d => simp [isSpValKV] at h

theorem isTodKV_inv (kv : String × JVal) (h : isTodKV kv = true) :
    ∃ t, kv = (SZ_TIME_OF_DAY, .str t) ∧ isTimeOfDay t = true := by
  obtain ⟨k, v⟩ := kv
  cases v with
  | str s =>
    simp only [isTodKV, Bool.and_eq_true, beq_iff_eq] at h
    exact ⟨s, by rw [h.1], h.2⟩
  | null => simp [isTodKV] at h
  | bool b => simp [isTodKV] at h
  | num q => simp [isTodKV] at h
  | arr xs => simp [isTodKV] at h
  | obj kvs => simp [isTodKV] at h
  | foreign d => simp [isTodKV] at h

theorem isDowKV_inv (kv : String × JVal) (h : isDowKV kv = true) :
    ∃ d, kv = (SZ_DAY_OF_WEEK, .str d) := by
  obtain ⟨k, v⟩ := kv
  cases v with
  | str s =>
    simp only [isDowKV, Bool.and_eq_true, beq_iff_eq] at h
    exact ⟨s, by rw [h.1]⟩
  | null => simp [isDowKV] at h
  | bool b => simp [isDowKV] at h
  | num q => simp [isDowKV] at h
  | arr xs => simp [isDowKV] at h
  | obj kvs => simp [isDowKV] at h
  | foreign d => simp [isDowKV] at h

theorem isSwpsKV_inv (kv : String × JVal) (h : isSwpsKV kv = true) :
    ∃ sps, kv = (SZ_SWITCHPOINTS, .arr sps) ∧ sps.all validSp = true := by
  obtain ⟨k, v⟩ := kv
  cases v with
  | arr xs =>
    simp only [isSwpsKV, Bool.and_eq_true, beq_iff_eq] at h
    exact ⟨xs, by rw [h.1], h.2⟩
  | null => simp [isSwpsKV] at h
  | bool b => simp [isSwpsKV] at h
  | num q => simp [isSwpsKV] at h
  | str s => simp [isSwpsKV] at h
  | obj kvs => simp [isSwpsKV] at h
  | foreign d => simp [isSwpsKV] at h

theorem validSp_inv (sp : JVal) (h : validSp sp = true) :
    ∃ kv1 kv2, sp = .obj [kv1, kv2] ∧
      ((isSpValKV kv1 = true ∧ isTodKV kv2 = true) ∨
        (isTodKV kv1 = true ∧ isSpValKV kv2 = true)) := by
  match sp, h with
  | .obj [kv1, kv2], h =>
    refine ⟨kv1, kv2, rfl, ?_⟩
    simpa only [validSp, Bool.or_eq_true, Bool.and_eq_true] using h

theorem validEntry_inv (e : JVal) (h : validEntry e = true) :
    ∃ kv1 kv2, e = .obj [kv1, kv2] ∧
      ((isDowKV kv1 = true ∧ isSwpsKV kv2 = true) ∨
        (isSwpsKV kv1 = true ∧ isDowKV kv2 = true)) := by
  match e, h with
  | .obj [kv1, kv2], h =>
    refine ⟨kv1, kv2, rfl, ?_⟩
    simpa only [validEntry, Bool.or_eq_true, Bool.and_eq_true] using h

theorem capitalizeKeys_of_isTimeOfDay (t : String) (ht : isTimeOfDay t = true) :
    capitalizeKeys t = t := by
  refine capitalizeKeys_tod t ?_
  intro c hc
  exact List.all_eq_true.mp ht c hc

theorem spContent_map (sp : JVal) (h : validSp sp = true) :
    ∃ pr, spContentR sp = some pr ∧
      spContentI (jvalMapStr capitalizeKeys sp) = some pr := by
  obtain ⟨kv1, kv2, rfl, hd⟩ := validSp_inv _ h
  rcases hd with ⟨h1, h2⟩ | ⟨h1, h2⟩
  · obtain ⟨t, rfl, ht⟩ := isTodKV_inv _ h2
    have hct : capitalizeKeys t = t := capitalizeKeys_of_isTimeOfDay t ht
    rcases isSpValKV_inv _ h1 with ⟨q, rfl⟩ | ⟨s, rfl, hs⟩
    · refine ⟨(.str t, .num q), rfl, ?_⟩
      simp only [jvalMapStr, jvalMapStrKVs, hct]
      rfl
    · have hcs : capitalizeKeys s = s := by
        rcases hs with rfl | rfl <;> decide
      refine ⟨(.str t, .str s), rfl, ?_⟩
      simp only [jvalMapStr, jvalMapStrKVs, hct, hcs]
      rfl
  · obtain ⟨t, rfl, ht⟩ := isTodKV_inv _ h1
    have hct : capitalizeKeys t = t := capitalizeKeys_of_isTimeOfDay t ht
    rcases isSpValKV_inv _ h2 with ⟨q, rfl⟩ | ⟨s, rfl, hs⟩
    · refine ⟨(.str t, .num q), rfl, ?_⟩
      simp only [jvalMapStr, jvalMapStrKVs, hct]
      rfl
    · have hcs : capitalizeKeys s = s := by
        rcases hs with rfl | rfl <;> decide
      refine ⟨(.str t, .str s), rfl, ?_⟩
      simp only [jvalMapStr, jvalMapStrKVs, hct, hcs]
      rfl

theorem mapO_spContent_map (sps : List JVal) (h : sps.all validSp = true) :
    ∃ l, mapO spContentR sps = some l ∧
      mapO spContentI (jvalMapStrList capitalizeKeys sps) = some l := by
  induction sps with
  | nil => exact ⟨[], rfl, rfl⟩
  | cons sp rest ih =>
    rw [List.all_cons, Bool.and_eq_true] at h
    obtain ⟨pr, hR, hI⟩ := spContent_map sp h.1
    obtain ⟨l, hlR, hlI⟩ := ih h.2
    refine ⟨pr :: l, ?_, ?_⟩
    · simp only [mapO, hR, hlR]
    · simp only [jvalMapStrList, mapO, hI, hlI]

theorem validSp_serializable (sp : JVal) (h : validSp sp = true) :
    serializable sp = true := by
  obtain ⟨kv1, kv2, rfl, hd⟩ := validSp_inv _ h
  have hval : ∀ kv : String × JVal, isSpValKV kv = true ∨ isTodKV kv = true →
      serializable kv.2 = true := by
    intro kv hkv
    rcases hkv with hkv | hkv
    · rcases isSpValKV_inv _ hkv with ⟨q, rfl⟩ | ⟨s, rfl, _⟩ <;> rfl
    · obtain ⟨t, rfl, _⟩ := isTodKV_inv _ hkv
      rfl
  rcases hd with ⟨h1, h2⟩ | ⟨h1, h2⟩
  · have e1 := hval kv1 (Or.inl h1)
    have e2 := hval kv2 (Or.inr h2)
    obtain ⟨k1, v1⟩ := kv1
    obtain ⟨k2, v2⟩ := kv2
    simp only [serializable, serializableKVs, Bool.and_eq_true]
    exact ⟨e1, e2, trivial⟩
  · have e1 := hval kv1 (Or.inr h1)
    have e2 := hval kv2 (Or.inl h2)
    obtain ⟨k1, v1⟩ := kv1
    obtain ⟨k2, v2⟩ := kv2
    simp only [serializable, serializableKVs, Bool.and_eq_true]
    exact ⟨e1, e2, trivial⟩

theorem validSp_list_serializable (sps : List JVal) (h : sps.all validSp = true) :
    serializableList sps = true := by
  induction sps with
  | nil => rfl
  | cons sp rest ih =>
    rw [List.all_cons, Bool.and_eq_true] at h
    simp only [serializableList, Bool.and_eq_true]
    exact ⟨validSp_serializable sp h.1, ih h.2⟩

theorem validEntry_serializable (e : JVal) (h : validEntry e = true) :
    serializable e = true := by
  obtain ⟨kv1, kv2, rfl, hd⟩ := validEntry_inv _ h
  have hval : ∀ kv : String × JVal, isDowKV kv = true ∨ isSwpsKV kv = true →
      serializable kv.2 = true := by
    intro kv hkv
    rcases hkv with hkv | hkv
    · obtain ⟨d, rfl⟩ := isDowKV_inv _ hkv
      rfl
    · obtain ⟨sps, rfl, hsps⟩ := isSwpsKV_inv _ hkv
      exact validSp_list_serializable sps hsps
  rcases hd with ⟨h1, h2⟩ | ⟨h1, h2⟩
  · have e1 := hval kv1 (Or.inl h1)
    have e2 := hval kv2 (Or.inr h2)
    obtain ⟨k1, v1⟩ := kv1
    obtain ⟨k2, v2⟩ := kv2
    simp only [serializable, serializableKVs, Bool.and_eq_true]
    exact ⟨e1, e2, trivial⟩
  · have e1 := hval kv1 (Or.inr h1)
    have e2 := hval kv2 (Or.inl h2)
    obtain ⟨k1, v1⟩ := kv1
    obtain ⟨k2, v2⟩ := kv2
    simp only [serializable, serializableKVs, Bool.and_eq_true]
    exact ⟨e1, e2, trivial⟩

theorem validEntry_list_serializable (es : List JVal) (h : es.all validEntry = true) :
    serializableList es = true := by
  induction es with
  | nil => rfl
  | cons e rest ih =>
    rw [List.all_cons, Bool.and_eq_true] at h
    simp only [serializableList, Bool.and_eq_true]
    exact ⟨validEntry_serializable e h.1, ih h.2⟩

theorem entryContent_map (e : JVal) (h : validEntry e = true) (i : Nat) :
    ∃ e2, setDow i (jvalMapStr capitalizeKeys e) = some e2 ∧
      entryDow e2 = some (.num (i : ℚ)) ∧
      ∃ l, entryContentR e = some l ∧ entryContentI e2 = some l := by
  obtain ⟨kv1, kv2, rfl, hd⟩ := validEntry_inv _ h
  rcases hd with ⟨h1, h2⟩ | ⟨h1, h2⟩
  · obtain ⟨d, rfl⟩ := isDowKV_inv _ h1
    obtain ⟨sps, rfl, hsps⟩ := isSwpsKV_inv _ h2
    obtain ⟨l, hR, hI⟩ := mapO_spContent_map sps hsps
    refine ⟨.obj [(pyCapitalize SZ_DAY_OF_WEEK, .num (i : ℚ)),
      (pyCapitalize SZ_SWITCHPOINTS, .arr (jvalMapStrList capitalizeKeys sps))],
      rfl, rfl, l, ?_, ?_⟩
    · exact hR
    · exact hI
  · obtain ⟨sps, rfl, hsps⟩ := isSwpsKV_inv _ h1
    obtain ⟨d, rfl⟩ := isDowKV_inv _ h2
    obtain ⟨l, hR, hI⟩ := mapO_spContent_map sps hsps
    refine ⟨.obj [(pyCapitalize SZ_SWITCHPOINTS, .arr (jvalMapStrList capitalizeKeys sps)),
      (pyCapitalize SZ_DAY_OF_WEEK, .num (i : ℚ))],
      rfl, rfl, l, ?_, ?_⟩
    · exact hR
    · exact hI

theorem assignOrds_map (entries : List JVal) :
    ∀ i, entries.all validEntry = true →
    ∃ es2, assignOrds i (jvalMapStrList capitalizeKeys entries) = some es2 ∧
      es2.length = entries.length ∧
      (∃ cs, mapO entryContentR entries = some cs ∧ mapO entryContentI es2 = some cs) ∧
      ∀ k (hk : k < es2.length), entryDow (es2.get ⟨k, hk⟩) = some (.num ((i + k : Nat) : ℚ)) := by
  induction entries with
  | nil =>
    intro i _
    exact ⟨[], rfl, rfl, ⟨[], rfl, rfl⟩, fun k hk => absurd hk (Nat.not_lt_zero k)⟩
  | cons e rest ih =>
    intro i h
    rw [List.all_cons, Bool.and_eq_true] at h
    obtain ⟨e2, hset, hdow, l, heR, heI⟩ := entryContent_map e h.1 i
    obtain ⟨es2, hass, hlen, ⟨cs, hcsR, hcsI⟩, hords⟩ := ih (i + 1) h.2
    refine ⟨e2 :: es2, ?_, ?_, ⟨l :: cs, ?_, ?_⟩, ?_⟩
    · simp only [jvalMapStrList, assignOrds, hset, hass, Option.map]
    · simp [hlen]
    · simp only [mapO, heR, hcsR]
    · simp only [mapO, heI, hcsI]
    · intro k hk
      cases k with
      | zero => exact hdow
      | succ k' =>
        have hk' : k' < es2.length := Nat.lt_of_succ_lt_succ hk
        have h2 := hords k' hk'
        have harith : i + 1 + k' = i + (k' + 1) := by omega
        rw [harith] at h2
        exact h2

theorem validSchedule_inv (j : JVal) (h : validSchedule j = true) :
    ∃ entries, j = .obj [(SZ_DAILY_SCHEDULES, .arr entries)] ∧
      entries.all validEntry = true := by
  match j, h with
  | .obj [(k, .arr entries)], h =>
    simp only [validSchedule, Bool.and_eq_true, beq_iff_eq] at h
    exact ⟨entries, by rw [h.1], h.2⟩

theorem get_schedule_obj (entries : List JVal) (hser : serializableList entries = true) :
    get_schedule (.obj [(SZ_DAILY_SCHEDULES, .arr entries)]) =
      match assignOrds 0 (jvalMapStrList capitalizeKeys entries) with
      | some es2 => some (.obj [(pyCapitalize SZ_DAILY_SCHEDULES, .arr es2)])
      | none => none := by
  have hser2 : serializable (.obj [(SZ_DAILY_SCHEDULES, .arr entries)]) = true := by
    show serializableList entries && true = true
    rw [hser]
    rfl
  have heq : (capitalizeKeys SZ_DAILY_SCHEDULES == pyCapitalize SZ_DAILY_SCHEDULES) = true := by
    decide
  have heq2 : capitalizeKeys SZ_DAILY_SCHEDULES = pyCapitalize SZ_DAILY_SCHEDULES := by
    decide
  unfold get_schedule
  rw [hser2, if_pos rfl]
  simp only [jvalMapStr, jvalMapStrKVs, jvalMapStrList]
  simp only [getKey, heq, if_true]
  simp only [setKey, heq, if_true]
  rw [heq2]

theorem get_schedule_valid (j : JVal) (h : validSchedule j = true) :
    ∃ entries es2 cs,
      j = .obj [(SZ_DAILY_SCHEDULES, .arr entries)] ∧
      get_schedule j = some (.obj [(pyCapitalize SZ_DAILY_SCHEDULES, .arr es2)]) ∧
      es2.length = entries.length ∧
      mapO entryContentR entries = some cs ∧ mapO entryContentI es2 = some cs ∧
      ∀ k (hk : k < es2.length), entryDow (es2.get ⟨k, hk⟩) = some (.num (k : ℚ)) := by
  obtain ⟨entries, rfl, hall⟩ := validSchedule_inv _ h
  obtain ⟨es2, hass, hlen, ⟨cs, hcsR, hcsI⟩, hords⟩ := assignOrds_map entries 0 hall
  refine ⟨entries, es2, cs, rfl, ?_, hlen, hcsR, hcsI, ?_⟩
  · rw [get_schedule_obj entries (validEntry_list_serializable entries hall), hass]
  · intro k hk
    have h2 := hords k hk
    have harith : 0 + k = k := by omega
    rw [harith] at h2
    exact h2

/-- C1: For every remote schedule payload accepted by the schedule schema,
decoding it remote-to-internal with get_schedule preserves the schedule
content exactly — the number of daily-schedule entries, the number of
switchpoints in each entry, the order of switchpoints, and each
switchpoint's (time-of-day, setpoint-or-state value) pair are identical
before and after the codec's casing transform (the common content list `cs`
is extracted from the remote payload under the remote field names and from
the decoded result under the capitalized field names); only field names and
the day-of-week field differ. -/
theorem get_schedule_preserves_switchpoint_content (j : JVal)
    (h : validSchedule j = true) :
    ∃ r cs, get_schedule j = some r ∧ remoteContent j = some cs ∧
      internalContent r = some cs := by
  obtain ⟨entries, es2, cs, hj, hres, _, hcsR, hcsI, _⟩ := get_schedule_valid j h
  subst hj
  exact ⟨_, cs, hres, hcsR, hcsI⟩

/-- Example remote hot-water schedule payload (one daily entry, two
switchpoints, field order varying) used to witness the codec claims. -/
def exSchedDhw : JVal :=
  .obj [("dailySchedules", .arr [
    .obj [("dayOfWeek", .str "Monday"), ("switchpoints", .arr [
      .obj [("dhwState", .str "On"), ("timeOfDay", .str "06:30:00")],
      .obj [("timeOfDay", .str "08:00:00"), ("dhwState", .str "Off")]])]])]

theorem get_schedule_preserves_switchpoint_content_witness :
    validSchedule exSchedDhw = true ∧
    (∃ r cs, get_schedule exSchedDhw = some r ∧ remoteContent exSchedDhw = some cs ∧
      internalContent r = some cs) :=
  ⟨by decide, get_schedule_preserves_switchpoint_content exSchedDhw (by decide)⟩

/-- C2: For every remote schedule payload accepted by the schedule schema
whose daily-schedules sequence has 7 entries, get_schedule assigns to each
entry, in encounter order, a day-of-week ordinal equal to its 0-indexed
position (first entry = 0 = Monday, last entry = 6), overwriting or adding
that field regardless of what day name the remote payload carried. -/
theorem get_schedule_assigns_day_ordinals (j : JVal) (entries : List JVal)
    (h : validSchedule j = true) (hds : remoteDays j = some entries)
    (h7 : entries.length = 7) :
    ∃ es2, internalDays (get_schedule j) = some es2 ∧ es2.length = 7 ∧
      ∀ k (hk : k < es2.length), entryDow (es2.get ⟨k, hk⟩) = some (.num (k : ℚ)) := by
  obtain ⟨entries', es2, cs, hj, hres, hlen, _, _, hords⟩ := get_schedule_valid j h
  subst hj
  have hent : entries' = entries := by
    have hr : remoteDays (.obj [(SZ_DAILY_SCHEDULES, .arr entries')]) = some entries' := rfl
    rw [hr] at hds
    exact Option.some.inj hds
  refine ⟨es2, ?_, ?_, hords⟩
  · rw [hres]
    exact rfl
  · rw [hlen, hent, h7]

/-- Example daily entries of a 7-day heating schedule used to witness the
ordinal-assignment claim. -/
def exEntries7 : List JVal :=
  [.obj [("dayOfWeek", .str "Monday"), ("switchpoints", .arr [
      .obj [("heatSetpoint", .num 21), ("timeOfDay", .str "07:00:00")]])],
    .obj [("dayOfWeek", .str "Tuesday"), ("switchpoints", .arr [
      .obj [("heatSetpoint", .num 21), ("timeOfDay", .str "07:00:00")]])],
    .obj [("dayOfWeek", .str "Wednesday"), ("switchpoints", .arr [
      .obj [("heatSetpoint", .num 21), ("timeOfDay", .str "07:00:00")]])],
    .obj [("dayOfWeek", .str "Thursday"), ("switchpoints", .arr [
      .obj [("heatSetpoint", .num 21), ("timeOfDay", .str "07:00:00")]])],
    .obj [("dayOfWeek", .str "Friday"), ("switchpoints", .arr [
      .obj [("heatSetpoint", .num 21), ("timeOfDay", .str "07:00:00")]])],
    .obj [("dayOfWeek", .str "Saturday"), ("switchpoints", .arr [
      .obj [("heatSetpoint", .num 18), ("timeOfDay", .str "08:30:00")]])],
    .obj [("dayOfWeek", .str "Sunday"), ("switchpoints", .arr [
      .obj [("heatSetpoint", .num 18), ("timeOfDay", .str "08:30:00")]])]]

/-- Example 7-day remote heating schedule payload. -/
def exSched7 : JVal :=
  .obj [("dailySchedules", .arr exEntries7)]

theorem get_schedule_assigns_day_ordinals_witness :
    validSchedule exSched7 = true ∧ exEntries7.length = 7 ∧
    (∃ es2, internalDays (get_schedule exSched7) = some es2 ∧ es2.length = 7 ∧
      ∀ k (hk : k < es2.length), entryDow (es2.get ⟨k, hk⟩) = some (.num (k : ℚ))) :=
  ⟨by decide, by decide,
    get_schedule_assigns_day_ordinals exSched7 exEntries7 (by decide) rfl (by decide)⟩

/-- C3: For every status payload (in particular every valid one matching the
variant's status shape), refresh issues its GET on the path
`SELF_TYPE/SELF_ID/status`, replaces the per-zone status cache wholesale with
exactly the returned payload, and returns that payload; afterwards every
status accessor (activeFaults, temperatureStatus, setpointStatus for
heating, stateStatus for hot water) returns exactly the value stored under
its field in the payload — hence `none` for any omitted optional field.
Before the first refresh the cache is the empty dict, so every status
accessor returns `none`. -/
theorem refresh_status_replaces_cache_and_accessors
    (ty id : String) (payload st : List (String × JVal)) :
    refresh_path ty id = ty ++ "/" ++ id ++ "/status" ∧
    refresh_status (.ok payload) st = (.ok payload, payload) ∧
    activeFaults (refresh_status (.ok payload) st).2 = getKey payload SZ_ACTIVE_FAULTS ∧
    temperatureStatus (refresh_status (.ok payload) st).2 = getKey payload SZ_TEMPERATURE_STATUS ∧
    setpointStatus (refresh_status (.ok payload) st).2 = getKey payload SZ_SETPOINT_STATUS ∧
    stateStatus (refresh_status (.ok payload) st).2 = getKey payload SZ_STATE_STATUS ∧
    activeFaults initialStatus = none ∧ temperatureStatus initialStatus = none ∧
    setpointStatus initialStatus = none ∧ stateStatus initialStatus = none :=
  ⟨rfl, rfl, rfl, rfl, rfl, rfl, rfl, rfl, rfl, rfl⟩

/-- C9: If the broker GET issued by refresh fails, the error propagates and
the status cache is left exactly as it was before the call — the cache is
only ever replaced after a successfully received (validated) response. -/
theorem refresh_failure_preserves_cache (e : EvoError) (st : List (String × JVal)) :
    refresh_status (.error e) st = (.error e, st) :=
  rfl

/-- C4: set_schedule raises InvalidSchedule and performs zero broker
invocations whenever its argument is invalid — a string that does not parse
as JSON, a dict that is not JSON-serializable, or a value of any other
type; for these inputs the recorded broker-call list is empty, so no PUT is
ever issued. -/
theorem set_schedule_invalid_raises_before_network (ty id : String) (arg : SchedArg)
    (h : (∃ s, arg = .str s ∧ json_loads s = none) ∨
      (∃ d, arg = .dict d ∧ serializable (.obj d) = false) ∨
      (∃ t, arg = .other t)) :
    (set_schedule ty id arg).1 = [] ∧
    ∃ msg, (set_schedule ty id arg).2 = some (.invalidSchedule msg) := by
  rcases h with ⟨s, rfl, hs⟩ | ⟨d, rfl, hd⟩ | ⟨t, rfl⟩
  · simp only [set_schedule, hs]
    exact ⟨trivial, _, rfl⟩
  · simp only [set_schedule, hd, Bool.false_eq_true, if_false]
    exact ⟨trivial, _, rfl⟩
  · exact ⟨rfl, _, rfl⟩

theorem set_schedule_invalid_raises_before_network_witness :
    json_loads "not json" = none ∧
    (set_schedule "domesticHotWater" "3933910" (.str "not json")).1 = [] ∧
    (∃ msg, (set_schedule "domesticHotWater" "3933910" (.str "not json")).2 =
      some (.invalidSchedule msg)) :=
  ⟨rfl,
    (set_schedule_invalid_raises_before_network "domesticHotWater" "3933910"
      (.str "not json") (Or.inl ⟨"not json", rfl, rfl⟩)).1,
    (set_schedule_invalid_raises_before_network "domesticHotWater" "3933910"
      (.str "not json") (Or.inl ⟨"not json", rfl, rfl⟩)).2⟩

/-- C8: On the write path, set_schedule applies no inverse-capitalization
transform: for every serializable dict argument the exact dict, and for
every JSON-parseable string argument the exact parsed value, is passed
unchanged (field casing as-is) as the body of the single PUT to
`SELF_TYPE/SELF_ID/schedule`. -/
theorem set_schedule_no_write_transform (ty id : String) :
    (∀ d, serializable (.obj d) = true →
      set_schedule ty id (.dict d) =
        ([⟨ty ++ "/" ++ id ++ "/schedule", .obj d⟩], none)) ∧
    (∀ s v, json_loads s = some v →
      set_schedule ty id (.str s) =
        ([⟨ty ++ "/" ++ id ++ "/schedule", v⟩], none)) := by
  constructor
  · intro d hd
    simp only [set_schedule, hd, if_true]
  · intro s v hv
    simp only [set_schedule, hv]

theorem set_schedule_no_write_transform_witness :
    serializable (.obj [("WeirdCasing", .null)]) = true ∧
    json_loads "[1, 2]" = some (.arr [.num 1, .num 2]) ∧
    set_schedule "temperatureZone" "3432576" (.dict [("WeirdCasing", .null)]) =
      ([⟨"temperatureZone" ++ "/" ++ "3432576" ++ "/schedule",
        .obj [("WeirdCasing", .null)]⟩], none) ∧
    set_schedule "temperatureZone" "3432576" (.str "[1, 2]") =
      ([⟨"temperatureZone" ++ "/" ++ "3432576" ++ "/schedule",
        .arr [.num 1, .num 2]⟩], none) :=
  ⟨by decide, rfl,
    (set_schedule_no_write_transform "temperatureZone" "3432576").1 _ (by decide),
    (set_schedule_no_write_transform "temperatureZone" "3432576").2 "[1, 2]" _ rfl⟩

/-- C5: For each zone variant, the mode-command operations construct exactly
the specified payload, chosen by the presence of the optional until
argument, and address it to the variant-specific command path
(`temperatureZone/SELF_ID/heatSetpoint` or `domesticHotWater/SELF_ID/state`). -/
theorem mode_commands_construct_exact_payloads (id : String) (t : Datetime)
    (temperature : ℚ) :
    HotWater_set_on id none = ⟨"domesticHotWater" ++ "/" ++ id ++ "/state",
      .obj [("Mode", .str "PermanentOverride"), ("State", .str "On"),
        ("UntilTime", .null)]⟩ ∧
    HotWater_set_on id (some t) = ⟨"domesticHotWater" ++ "/" ++ id ++ "/state",
      .obj [("Mode", .str "TemporaryOverride"), ("State", .str "On"),
        ("UntilTime", .str (api_strftime t))]⟩ ∧
    HotWater_set_off id none = ⟨"domesticHotWater" ++ "/" ++ id ++ "/state",
      .obj [("Mode", .str "PermanentOverride"), ("State", .str "Off"),
        ("UntilTime", .null)]⟩ ∧
    HotWater_set_off id (some t) = ⟨"domesticHotWater" ++ "/" ++ id ++ "/state",
      .obj [("Mode", .str "TemporaryOverride"), ("State", .str "Off"),
        ("UntilTime", .str (api_strftime t))]⟩ ∧
    HotWater_set_auto id = ⟨"domesticHotWater" ++ "/" ++ id ++ "/state",
      .obj [("Mode", .str "FollowSchedule"), ("State", .str ""),
        ("UntilTime", .null)]⟩ ∧
    Zone_set_temperature id temperature none =
      ⟨"temperatureZone" ++ "/" ++ id ++ "/heatSetpoint",
        .obj [("SetpointMode", .str "PermanentOverride"),
          ("HeatSetpointValue", .num temperature), ("TimeUntil", .null)]⟩ ∧
    Zone_set_temperature id temperature (some t) =
      ⟨"temperatureZone" ++ "/" ++ id ++ "/heatSetpoint",
        .obj [("SetpointMode", .str "TemporaryOverride"),
          ("HeatSetpointValue", .num temperature),
          ("TimeUntil", .str (api_strftime t))]⟩ ∧
    Zone_cancel_temp_override id =
      ⟨"temperatureZone" ++ "/" ++ id ++ "/heatSetpoint",
        .obj [("SetpointMode", .str "FollowSchedule"),
          ("HeatSetpointValue", .num 0), ("TimeUntil", .null)]⟩ :=
  ⟨rfl, rfl, rfl, rfl, rfl, rfl, rfl, rfl⟩

/-- C6: Every deprecated operation (the zone_type property and schedule() on
the zone base; zoneId, get_dhw_state, set_dhw_on, set_dhw_off, set_dhw_auto
on hot water), called with any arguments, unconditionally fails with the
deprecation error naming the replacement, and records no broker call; none
of them aliases to the current operation. -/
theorem deprecated_operations_always_fail (args : List JVal)
    (kwargs : List (String × JVal)) :
    ZoneBaseDeprecated_zone_type =
      ([], some (.deprecated "ZoneBase.zone_type is deprecated, use ._type")) ∧
    ZoneBaseDeprecated_schedule =
      ([], some (.deprecated "ZoneBase.schedule() is deprecrated, use .get_schedule()")) ∧
    HotWaterDeprecated_zoneId =
      ([], some (.deprecated "HotWater.zoneId is deprecated, use .dhwId (or ._id)")) ∧
    HotWaterDeprecated_get_dhw_state args kwargs =
      ([], some (.deprecated "HotWater.get_dhw_state() is deprecated, use .update_status()")) ∧
    HotWaterDeprecated_set_dhw_on args kwargs =
      ([], some (.deprecated "HotWater.set_dhw_on() is deprecated, use .set_on()")) ∧
    HotWaterDeprecated_set_dhw_off args kwargs =
      ([], some (.deprecated "HotWater.set_dhw_off() is deprecated, use .set_off()")) ∧
    HotWaterDeprecated_set_dhw_auto args kwargs =
      ([], some (.deprecated "HotWater.set_dhw_auto() is deprecated, use .set_auto()")) :=
  ⟨rfl, rfl, rfl, rfl, rfl, rfl, rfl⟩

/-- C7: Constructing a zone entity (heating or hot-water) from a config
payload whose identifier field (zoneId / dhwId) is missing or falsy (e.g.
empty) fails with the construction-time config-integrity error, and no
entity is created; when the identifier is present and truthy, construction
succeeds and the entity's id equals that identifier (with the config stored
unchanged). -/
theorem zone_construction_requires_identifier (config : List (String × JVal)) :
    ((getKey config SZ_ZONE_ID = none ∨
        ∃ v, getKey config SZ_ZONE_ID = some v ∧ truthy v = false) →
      ∃ msg, Zone_init config = .error (.configIntegrity msg)) ∧
    (∀ v, getKey config SZ_ZONE_ID = some v → truthy v = true →
      ∃ z, Zone_init config = .ok z ∧ z._id = v ∧ z._config = config) ∧
    ((getKey config SZ_DHW_ID = none ∨
        ∃ v, getKey config SZ_DHW_ID = some v ∧ truthy v = false) →
      ∃ msg, HotWater_init config = .error (.configIntegrity msg)) ∧
    (∀ v, getKey config SZ_DHW_ID = some v → truthy v = true →
      ∃ z, HotWater_init config = .ok z ∧ z._id = v ∧ z._config = config) := by
  refine ⟨?_, ?_, ?_, ?_⟩
  · rintro (h | ⟨v, hv, ht⟩)
    · exact ⟨"KeyError: " ++ SZ_ZONE_ID, by simp only [Zone_init, h]⟩
    · exact ⟨"Invalid config dict",
        by simp only [Zone_init, hv, ht, Bool.false_eq_true, if_false]⟩
  · intro v hv ht
    exact ⟨⟨v, config, initialStatus⟩, by simp only [Zone_init, hv, ht, if_true], rfl, rfl⟩
  · rintro (h | ⟨v, hv, ht⟩)
    · exact ⟨"KeyError: " ++ SZ_DHW_ID, by simp only [HotWater_init, h]⟩
    · exact ⟨"Invalid config dict",
        by simp only [HotWater_init, hv, ht, Bool.false_eq_true, if_false]⟩
  · intro v hv ht
    exact ⟨⟨v, config, initialStatus⟩, by simp only [HotWater_init, hv, ht, if_true], rfl, rfl⟩

theorem zone_construction_requires_identifier_witness :
    (∃ msg, Zone_init [] = .error (.configIntegrity msg)) ∧
    (∃ z, Zone_init [("zoneId", .str "3432576")] = .ok z ∧
      z._id = .str "3432576" ∧ z._config = [("zoneId", .str "3432576")]) ∧
    (∃ msg, HotWater_init [("dhwId", .str "")] = .error (.configIntegrity msg)) ∧
    (∃ z, HotWater_init [("dhwId", .str "3933910")] = .ok z ∧
      z._id = .str "3933910" ∧ z._config = [("dhwId", .str "3933910")]) :=
  ⟨(zone_construction_requires_identifier []).1 (Or.inl rfl),
    (zone_construction_requires_identifier [("zoneId", .str "3432576")]).2.1 _ rfl (by decide),
    (zone_construction_requires_identifier [("dhwId", .str "")]).2.2.1
      (Or.inr ⟨.str "", rfl, by decide⟩),
    (zone_construction_requires_identifier [("dhwId", .str "3933910")]).2.2.2 _ rfl (by decide)⟩

/-- C10: For every hot-water zone entity, in every state (any id, any config
payload, any status cache — so before or after any number of refreshes), the
name accessor returns exactly the constant string "Domestic Hot Water",
independent of the config and status contents — unlike the heating variant,
whose name is read from its config. -/
theorem hotwater_name_constant :
    (∀ hw : HotWaterRec, HotWater_name hw = "Domestic Hot Water") ∧
    (∀ config v, getKey config SZ_NAME = some v → truthy v = true →
      Zone_name config = .ok v) := by
  constructor
  · intro hw
    rfl
  · intro config v hv ht
    simp only [Zone_name, hv, ht, if_true]

theorem hotwater_name_constant_witness :
    HotWater_name ⟨.str "3933910", [("dhwId", .str "3933910")],
      [("stateStatus", .obj [("state", .str "On")])]⟩ = "Domestic Hot Water" ∧
    Zone_name [("name", .str "Living Room")] = .ok (.str "Living Room") :=
  ⟨hotwater_name_constant.1 _, hotwater_name_constant.2 _ _ rfl (by decide)⟩
